import Mathlib

/-!
# my_rng PCI driver: request dispatcher and device lifecycle

A shallow embedding of `my-rng-module.c` (the kernel module) and of the
request identifiers hard-coded in `benchmark.c` (the client).

The three driver globals (`devmem`, `major_num`, `my_rng_pci_dev`) and the part
of the host kernel the driver acts on (bus enable, region claim, live mapping,
registered character device, the caller's memory) form one explicit `State`.
Every call into the host is appended to `State.trace`, so that the order of
register accesses, of transfers and of releases can be stated.

Pointers are natural numbers, `0` is `NULL`.  `pr_info`/`pr_err` diagnostics
carry no behaviour and are left out.
-/

namespace MyRng

/-! ## Constants of the host headers -/

/-- Linux errno `EIO` (host header, not part of the repository). -/
def EIO : Int := 5
/-- Linux errno `ENOMEM` (host header, not part of the repository). -/
def ENOMEM : Int := 12
/-- Linux errno `EFAULT` (host header, not part of the repository). -/
def EFAULT : Int := 14
/-- Linux errno `ENODEV` (host header, not part of the repository). -/
def ENODEV : Int := 19
/-- Linux errno `ENOTTY` (host header, not part of the repository). -/
def ENOTTY : Int := 25

/-- Modelled from the spec: direction bit of a write request (`_IOC_WRITE`) in the
Linux generic request encoding; `linux/ioctl.h` is not part of the repository. -/
def _IOC_WRITE : Nat := 1
/-- Modelled from the spec: direction bit of a read request (`_IOC_READ`) in the
Linux generic request encoding; `linux/ioctl.h` is not part of the repository. -/
def _IOC_READ : Nat := 2

/-- Modelled from the spec: the Linux generic request encoding
`_IOC(dir, type, nr, size) = dir * 2^30 + size * 2^16 + type * 2^8 + nr`;
the macro lives in `linux/ioctl.h`, which is not part of the repository. -/
def _IOC (dir ty nr size : Nat) : Nat :=
  dir * 2 ^ 30 + size * 2 ^ 16 + ty * 2 ^ 8 + nr

/-- Modelled from the spec: `_IOR(type, nr, T) = _IOC(_IOC_READ, type, nr, sizeof(T))`. -/
def _IOR (ty nr size : Nat) : Nat := _IOC _IOC_READ ty nr size
/-- Modelled from the spec: `_IOW(type, nr, T) = _IOC(_IOC_WRITE, type, nr, sizeof(T))`. -/
def _IOW (ty nr size : Nat) : Nat := _IOC _IOC_WRITE ty nr size

/-- The value of `sizeof(unsigned int)`. -/
def sizeof_unsigned_int : Nat := 4
/-- The value of `sizeof(unsigned long long)`. -/
def sizeof_unsigned_long_long : Nat := 8

/-! ## Request identifiers -/

/-- Driver: `#define MY_RNG_IOCTL_RAND _IOR('q', 1, unsigned int)`. -/
def MY_RNG_IOCTL_RAND : Nat := _IOR 'q'.toNat 1 sizeof_unsigned_int
/-- Driver: `#define MY_RNG_IOCTL_SEED _IOW('q', 1, unsigned int)`. -/
def MY_RNG_IOCTL_SEED : Nat := _IOW 'q'.toNat 1 sizeof_unsigned_int
/-- Driver: `#define MY_RNG_IOCTL_RAND64 _IOR('q', 2, unsigned long long)`. -/
def MY_RNG_IOCTL_RAND64 : Nat := _IOR 'q'.toNat 2 sizeof_unsigned_long_long

/-- Client: `#define RAND_IOCTL 0x80047101`. -/
def RAND_IOCTL : Nat := 0x80047101
/-- Client: `#define RAND64_IOCTL 0x80087102`. -/
def RAND64_IOCTL : Nat := 0x80087102
/-- Client: `#define SEED_IOCTL 0x40047101`. -/
def SEED_IOCTL : Nat := 0x40047101

/-! ## State -/

/-- One call into the host, in the order the driver makes it. -/
inductive Event where
  | pci_enable_device (pdev : Nat)
  | pci_disable_device (pdev : Nat)
  | pci_request_regions (pdev : Nat)
  | pci_release_regions (pdev : Nat)
  | pci_iomap (pdev bar maxlen : Nat)
  | pci_iounmap (pdev addr : Nat)
  | pci_set_drvdata (pdev data : Nat)
  | register_chrdev (major : Nat)
  | unregister_chrdev (major : Nat)
  | ioread32 (addr : Nat)
  | iowrite32 (value addr : Nat)
  | copy_to_user (dst value n : Nat)
  | copy_from_user (src n : Nat)
  deriving DecidableEq, Repr

/-- The driver globals together with the host resources they refer to. -/
structure State where
  /-- Driver global `devmem`, the mapping reference (`0` is `NULL`). -/
  devmem : Nat
  /-- Driver global `major_num`. -/
  major_num : Int
  /-- Driver global `my_rng_pci_dev`, the active device (`0` is `NULL`). -/
  my_rng_pci_dev : Nat
  /-- Host: the bus interface of the device is enabled. -/
  enabled : Bool
  /-- Host: the resource regions of the device are claimed. -/
  regions : Bool
  /-- Host: the live mapping of BAR0 (`0` when none is live). -/
  iomap : Nat
  /-- Host: the driver data recorded on the device. -/
  drvdata : Nat
  /-- Host: the major number under which the request channel is registered. -/
  chrdev : Option Nat
  /-- Caller memory: the object at this address can be read. -/
  readable : Nat → Bool
  /-- Caller memory: the object at this address can be written. -/
  writable : Nat → Bool
  /-- Caller memory: the object stored at an address. -/
  load : Nat → Nat
  /-- Every host call made so far, oldest first. -/
  trace : List Event

/-- The device behind the mapping: the value a 32-bit load at an address
returns, as a function of every access made before it. -/
abbrev Hardware := List Event → Nat → Nat

/-- Outcomes of the host calls made by `my_rng_pci_probe`; a failure is injected
by choosing the outcome of a step. -/
structure Host where
  /-- Return value of `pci_enable_device` (`0` on success). -/
  enable_ret : Int
  /-- Return value of `pci_request_regions` (`0` on success). -/
  request_ret : Int
  /-- Value of `pci_resource_start(pdev, 0)`. -/
  mmio_start : Nat
  /-- Value of `pci_resource_len(pdev, 0)`. -/
  mmio_len : Nat
  /-- Return value of `pci_iomap` (`0`, that is `NULL`, on failure). -/
  iomap_ret : Nat
  /-- Return value of `register_chrdev` (negative on failure). -/
  chrdev_ret : Int

/-! ## Host calls -/

/-- Host call `ioread32(addr)`: one 32-bit load. -/
def ioread32 (hw : Hardware) (s : State) (addr : Nat) : Nat × State :=
  (hw s.trace addr % 2 ^ 32, { s with trace := s.trace ++ [Event.ioread32 addr] })

/-- Host call `iowrite32(value, addr)`: one 32-bit store. -/
def iowrite32 (s : State) (value addr : Nat) : State :=
  { s with trace := s.trace ++ [Event.iowrite32 value addr] }

/-- Host call `copy_to_user(dst, &value, n)`: returns the number of bytes that
could not be copied; the object is stored when the buffer is writable. -/
def copy_to_user (s : State) (dst value n : Nat) : Nat × State :=
  if s.writable dst then
    (0, { s with load := fun a => if a = dst then value else s.load a,
                 trace := s.trace ++ [Event.copy_to_user dst value n] })
  else
    (n, { s with trace := s.trace ++ [Event.copy_to_user dst value n] })

/-- Host call `copy_from_user(&value, src, n)`: returns the number of bytes that
could not be copied, and the `n` bytes read when the buffer is readable. -/
def copy_from_user (s : State) (src n : Nat) : (Nat × Nat) × State :=
  if s.readable src then
    ((0, s.load src % 2 ^ (8 * n)), { s with trace := s.trace ++ [Event.copy_from_user src n] })
  else
    ((n, 0), { s with trace := s.trace ++ [Event.copy_from_user src n] })

/-- Host call `pci_enable_device(pdev)`: enables the bus interface when it returns 0
and has no effect when it fails. -/
def pci_enable_device (h : Host) (s : State) (pdev : Nat) : Int × State :=
  (h.enable_ret,
   { s with enabled := if h.enable_ret = 0 then true else s.enabled,
            trace := s.trace ++ [Event.pci_enable_device pdev] })

/-- Host call `pci_disable_device(pdev)`: the bus interface is disabled afterwards. -/
def pci_disable_device (s : State) (pdev : Nat) : State :=
  { s with enabled := false, trace := s.trace ++ [Event.pci_disable_device pdev] }

/-- Host call `pci_request_regions(pdev, "my_rng")`: claims the regions when it
returns 0 and has no effect when it fails. -/
def pci_request_regions (h : Host) (s : State) (pdev : Nat) : Int × State :=
  (h.request_ret,
   { s with regions := if h.request_ret = 0 then true else s.regions,
            trace := s.trace ++ [Event.pci_request_regions pdev] })

/-- Host call `pci_release_regions(pdev)`: no region is claimed afterwards. -/
def pci_release_regions (s : State) (pdev : Nat) : State :=
  { s with regions := false, trace := s.trace ++ [Event.pci_release_regions pdev] }

/-- Host call `pci_iomap(pdev, bar, maxlen)`: the returned address is the live mapping
when it is not `NULL`; a failing call has no effect. -/
def pci_iomap (h : Host) (s : State) (pdev bar maxlen : Nat) : Nat × State :=
  (h.iomap_ret,
   { s with iomap := if h.iomap_ret = 0 then s.iomap else h.iomap_ret,
            trace := s.trace ++ [Event.pci_iomap pdev bar maxlen] })

/-- Host call `pci_iounmap(pdev, addr)`: the mapping at `addr` is no longer live. -/
def pci_iounmap (s : State) (pdev addr : Nat) : State :=
  { s with iomap := if s.iomap = addr then 0 else s.iomap,
           trace := s.trace ++ [Event.pci_iounmap pdev addr] }

/-- Host call `pci_set_drvdata(pdev, data)`. -/
def pci_set_drvdata (s : State) (pdev data : Nat) : State :=
  { s with drvdata := data, trace := s.trace ++ [Event.pci_set_drvdata pdev data] }

/-- Host call `register_chrdev(major, "my_rng_driver", &my_rng_fops)`: a non-negative
result is the major number now registered; a failing call has no effect. -/
def register_chrdev (h : Host) (s : State) (major : Nat) : Int × State :=
  (h.chrdev_ret,
   { s with chrdev := if h.chrdev_ret < 0 then s.chrdev else some h.chrdev_ret.toNat,
            trace := s.trace ++ [Event.register_chrdev major] })

/-- Host call `unregister_chrdev(major, "my_rng_driver")`: nothing is registered
under `major` afterwards. -/
def unregister_chrdev (s : State) (major : Nat) : State :=
  { s with chrdev := if s.chrdev = some major then none else s.chrdev,
           trace := s.trace ++ [Event.unregister_chrdev major] }

/-! ## The driver -/

/-- The request dispatcher `my_rng_ioctl(file, cmd, arg)`. -/
def my_rng_ioctl (hw : Hardware) (s : State) (cmd arg : Nat) : Int × State :=
  if s.devmem = 0 then
    (- ENODEV, s)
  else if cmd = MY_RNG_IOCTL_RAND then
    let value := ioread32 hw s s.devmem
    let ret := copy_to_user value.2 arg value.1 sizeof_unsigned_int
    if ret.1 ≠ 0 then (- EFAULT, ret.2) else (0, ret.2)
  else if cmd = MY_RNG_IOCTL_RAND64 then
    let low := ioread32 hw s (s.devmem + 0x8)
    let high := ioread32 hw low.2 (s.devmem + 0xC)
    let value64 := ((high.1 <<< 32) ||| low.1) % 2 ^ 64
    let ret := copy_to_user high.2 arg value64 sizeof_unsigned_long_long
    if ret.1 ≠ 0 then (- EFAULT, ret.2) else (0, ret.2)
  else if cmd = MY_RNG_IOCTL_SEED then
    let ret := copy_from_user s arg sizeof_unsigned_int
    if ret.1.1 ≠ 0 then (- EFAULT, ret.2)
    else
      let value := ret.1.2
      (0, iowrite32 ret.2 value (s.devmem + 4))
  else
    (- ENOTTY, s)

/-- The attach entry point `my_rng_pci_probe(pdev, id)`. -/
def my_rng_pci_probe (h : Host) (s : State) (pdev : Nat) : Int × State :=
  let en := pci_enable_device h s pdev
  if en.1 ≠ 0 then
    (- EIO, en.2)
  else
    let rq := pci_request_regions h en.2 pdev
    if rq.1 ≠ 0 then
      (- EIO, pci_disable_device rq.2 pdev)
    else
      let mmio_len := h.mmio_len
      let mp := pci_iomap h rq.2 pdev 0 mmio_len
      let s1 : State := { mp.2 with devmem := mp.1 }
      if s1.devmem = 0 then
        (- ENOMEM, pci_disable_device (pci_release_regions s1 pdev) pdev)
      else
        let s2 : State := { s1 with my_rng_pci_dev := pdev }
        let s3 := pci_set_drvdata s2 pdev s2.devmem
        let rg := register_chrdev h s3 0
        let s4 : State := { rg.2 with major_num := rg.1 }
        if s4.major_num < 0 then
          (s4.major_num,
           pci_disable_device (pci_release_regions (pci_iounmap s4 pdev s4.devmem) pdev) pdev)
        else
          (0, s4)

/-- The detach entry point `my_rng_pci_remove(pdev)`. -/
def my_rng_pci_remove (s : State) (pdev : Nat) : State :=
  let s1 := if s.major_num > 0 then unregister_chrdev s s.major_num.toNat else s
  let s2 : State :=
    if s1.devmem ≠ 0 then { pci_iounmap s1 pdev s1.devmem with devmem := 0 } else s1
  let s3 := pci_release_regions s2 pdev
  let s4 := pci_disable_device s3 pdev
  { s4 with my_rng_pci_dev := 0 }

/-! ## Vocabulary of the statements -/

/-- A stream of requests served one after the other, each as `(cmd, arg)`. -/
def serve (hw : Hardware) (s : State) : List (Nat × Nat) → State
  | [] => s
  | r :: rs => serve hw (my_rng_ioctl hw s r.1 r.2).2 rs

/-- The pre-attach state: nothing enabled, claimed, mapped or recorded. -/
def Unattached (s : State) : Prop :=
  s.devmem = 0 ∧ s.my_rng_pci_dev = 0 ∧ s.enabled = false ∧ s.regions = false ∧ s.iomap = 0

/-- The three setup steps of attach at which a failure can be injected. -/
inductive Step where
  | enable
  | region
  | mapping
  deriving DecidableEq, Repr

/-- The host outcomes under which attach fails exactly at the given step. -/
def FailsAt (h : Host) : Step → Prop
  | Step.enable => h.enable_ret ≠ 0
  | Step.region => h.enable_ret = 0 ∧ h.request_ret ≠ 0
  | Step.mapping => h.enable_ret = 0 ∧ h.request_ret = 0 ∧ h.iomap_ret = 0

instance (h : Host) (k : Step) : Decidable (FailsAt h k) := by
  cases k <;> unfold FailsAt <;> infer_instance

/-- The host calls attach makes when it fails at the given step: the steps that
succeeded, the failing call, then the releases. -/
def unwound (h : Host) (pdev : Nat) : Step → List Event
  | Step.enable => [Event.pci_enable_device pdev]
  | Step.region =>
      [Event.pci_enable_device pdev, Event.pci_request_regions pdev,
       Event.pci_disable_device pdev]
  | Step.mapping =>
      [Event.pci_enable_device pdev, Event.pci_request_regions pdev,
       Event.pci_iomap pdev 0 h.mmio_len,
       Event.pci_release_regions pdev, Event.pci_disable_device pdev]

/-- A state with nothing attached; the caller owns one buffer, at `0x7000`,
readable and writable, holding the seed `0x12345678`. -/
def state0 : State :=
  { devmem := 0, major_num := 0, my_rng_pci_dev := 0, enabled := false, regions := false,
    iomap := 0, drvdata := 0, chrdev := none, readable := fun a => decide (a = 0x7000),
    writable := fun a => decide (a = 0x7000),
    load := fun a => if a = 0x7000 then 0x12345678 else 0, trace := [] }

/-- Host outcomes of an attach in which every step succeeds. -/
def hostOk : Host :=
  { enable_ret := 0, request_ret := 0, mmio_start := 0xfebf0000, mmio_len := 16,
    iomap_ret := 0x1000, chrdev_ret := 240 }

/-- A device whose registers hold fixed values: `0x0` at offset `0x8` and `0x1`
at offset `0xC` of a mapping at `0x1000`. -/
def hwFixed : Hardware := fun _ addr =>
  if addr = 0x1008 then 0 else if addr = 0x100C then 1 else 0xdeadbeef

/-- Host outcomes of an attach whose bus enable fails. -/
def hostEnableFails : Host := { hostOk with enable_ret := -22 }

/-- Host outcomes of an attach whose region claim fails (region owned by another driver). -/
def hostRegionFails : Host := { hostOk with request_ret := -16 }

/-- Host outcomes of an attach whose mapping fails. -/
def hostMappingFails : Host := { hostOk with iomap_ret := 0 }

/-- Host outcomes of an attach whose request-channel registration fails. -/
def hostChrdevFails : Host := { hostOk with chrdev_ret := -16 }

/-- The state after a successful attach of device `7` from `state0`. -/
def stateAttached : State := (my_rng_pci_probe hostOk state0 7).2

/-! ## Helper lemmas -/

/-- A 32-bit high half shifted left by 32 and or-ed with a 32-bit low half is
`high * 2^32 + low`. -/
theorem shift_or_eq (low high : Nat) (hl : low < 2 ^ 32) :
    (high <<< 32) ||| low = high * 2 ^ 32 + low := by
  rw [Nat.shiftLeft_eq, Nat.mul_comm high (2 ^ 32)]
  exact (Nat.mul_add_lt_is_or hl high).symm

/-- Two 32-bit halves assemble to a value that fits in 64 bits. -/
theorem assemble_lt (low high : Nat) (hl : low < 2 ^ 32) (hh : high < 2 ^ 32) :
    high * 2 ^ 32 + low < 2 ^ 64 := by
  have h1 : high * 2 ^ 32 ≤ (2 ^ 32 - 1) * 2 ^ 32 := Nat.mul_le_mul_right _ (by omega)
  have h2 : (2 ^ 32 - 1) * 2 ^ 32 + 2 ^ 32 = 2 ^ 64 := by norm_num
  omega

/-- Detach always leaves the mapping reference `NULL`. -/
theorem remove_devmem (s : State) (pdev : Nat) :
    (my_rng_pci_remove s pdev).devmem = 0 := by
  unfold my_rng_pci_remove pci_disable_device pci_release_regions pci_iounmap unregister_chrdev
  by_cases hm : s.major_num > 0 <;> by_cases hd : s.devmem = 0 <;> simp [hm, hd]

/-- A successful attach leaves a non-`NULL` mapping reference. -/
theorem probe_ok_devmem (h : Host) (s : State) (pdev : Nat)
    (hok : (my_rng_pci_probe h s pdev).1 = 0) :
    (my_rng_pci_probe h s pdev).2.devmem ≠ 0 := by
  by_cases a : h.enable_ret = 0
  · by_cases b : h.request_ret = 0
    · by_cases c : h.iomap_ret = 0
      · simp [my_rng_pci_probe, pci_enable_device, pci_request_regions, pci_iomap, a, b, c,
          ENOMEM] at hok
      · by_cases d : h.chrdev_ret < 0
        · simp [my_rng_pci_probe, pci_enable_device, pci_request_regions, pci_iomap,
            pci_set_drvdata, register_chrdev, a, b, c, d] at hok
          omega
        · simp [my_rng_pci_probe, pci_enable_device, pci_request_regions, pci_iomap,
            pci_set_drvdata, register_chrdev, a, b, c, d]
    · simp [my_rng_pci_probe, pci_enable_device, pci_request_regions, a, b, EIO] at hok
  · simp [my_rng_pci_probe, pci_enable_device, a, EIO] at hok

/-- With no mapping reference the dispatcher refuses and changes nothing. -/
theorem ioctl_unmapped (hw : Hardware) (s : State) (cmd arg : Nat) (h : s.devmem = 0) :
    my_rng_ioctl hw s cmd arg = (- ENODEV, s) := by
  simp [my_rng_ioctl, h]

/-! ## Request dispatcher -/

/-- C1: on an attached device whose registers hold `low` at offset `0x8` and `high`
at offset `0xC` (both 32-bit), a RAND64 request with a writable caller buffer
returns 0 and stores `(high << 32) | low = high * 2^32 + low` in the buffer, after
reading offset `0x8` first and offset `0xC` second. -/
theorem rand64_delivers (hw : Hardware) (s : State) (arg low high : Nat)
    (hdev : s.devmem ≠ 0) (hbuf : s.writable arg = true)
    (hl : low < 2 ^ 32) (hh : high < 2 ^ 32)
    (hlow : hw s.trace (s.devmem + 0x8) = low)
    (hhigh : hw (s.trace ++ [Event.ioread32 (s.devmem + 0x8)]) (s.devmem + 0xC) = high) :
    my_rng_ioctl hw s MY_RNG_IOCTL_RAND64 arg =
        (0, { s with
                load := fun a => if a = arg then high * 2 ^ 32 + low else s.load a,
                trace := s.trace ++
                  [Event.ioread32 (s.devmem + 0x8), Event.ioread32 (s.devmem + 0xC),
                   Event.copy_to_user arg (high * 2 ^ 32 + low) 8] })
      ∧ (my_rng_ioctl hw s MY_RNG_IOCTL_RAND64 arg).2.load arg = high * 2 ^ 32 + low
      ∧ high * 2 ^ 32 + low = (high <<< 32) ||| low := by
  have hne : MY_RNG_IOCTL_RAND64 ≠ MY_RNG_IOCTL_RAND := by decide
  have hv : ((hw (s.trace ++ [Event.ioread32 (s.devmem + 0x8)]) (s.devmem + 0xC) % 2 ^ 32) <<< 32
      ||| (hw s.trace (s.devmem + 0x8) % 2 ^ 32)) % 2 ^ 64 = high * 2 ^ 32 + low := by
    rw [hlow, hhigh, Nat.mod_eq_of_lt hl, Nat.mod_eq_of_lt hh, shift_or_eq low high hl,
      Nat.mod_eq_of_lt (assemble_lt low high hl hh)]
  have key : my_rng_ioctl hw s MY_RNG_IOCTL_RAND64 arg =
      (0, { s with
              load := fun a => if a = arg then high * 2 ^ 32 + low else s.load a,
              trace := s.trace ++
                [Event.ioread32 (s.devmem + 0x8), Event.ioread32 (s.devmem + 0xC),
                 Event.copy_to_user arg (high * 2 ^ 32 + low) 8] }) := by
    simp only [my_rng_ioctl, hdev, hne, if_false, if_true, ioread32, copy_to_user, hbuf, hv,
      sizeof_unsigned_long_long, ne_eq, not_true_eq_false, List.append_assoc,
      List.cons_append, List.nil_append]
  refine ⟨key, ?_, (shift_or_eq low high hl).symm⟩
  rw [key]
  simp

/-- C1 at the example of the spec: low = 0x00000000 and high = 0x00000001 give
0x0000000100000000. -/
theorem rand64_delivers_witness :
    (my_rng_ioctl hwFixed stateAttached MY_RNG_IOCTL_RAND64 0x7000).2.load 0x7000
      = 0x0000000100000000 :=
  (rand64_delivers hwFixed stateAttached 0x7000 0 1 (by decide) (by decide) (by decide)
    (by decide) (by decide) (by decide)).2.1

/-- C2: with no live mapping (`devmem == NULL`) every request, whatever its
identifier and argument, returns `-ENODEV` and leaves the whole state unchanged:
no register access and no transfer is added to the trace, and the caller's memory
is untouched. -/
theorem unattached_not_ready (hw : Hardware) (s : State) (cmd arg : Nat)
    (h : s.devmem = 0) :
    my_rng_ioctl hw s cmd arg = (- ENODEV, s) := by
  simp [my_rng_ioctl, h]

/-- C2 at a concrete unattached state and the RAND request. -/
theorem unattached_not_ready_witness :
    state0.devmem = 0 ∧
      my_rng_ioctl hwFixed state0 MY_RNG_IOCTL_RAND 0x7000 = (- ENODEV, state0) :=
  ⟨rfl, unattached_not_ready hwFixed state0 MY_RNG_IOCTL_RAND 0x7000 rfl⟩

/-- C3 as stated fails: in the unattached state the request identifier `0`, which is
none of the three supported ones, is answered with `-ENODEV`, not `-ENOTTY`. -/
theorem unsupported_unattached_counterexample :
    (0 ≠ MY_RNG_IOCTL_SEED ∧ 0 ≠ MY_RNG_IOCTL_RAND ∧ 0 ≠ MY_RNG_IOCTL_RAND64)
      ∧ state0.devmem = 0
      ∧ (my_rng_ioctl hwFixed state0 0 0x7000).1 = - ENODEV
      ∧ (my_rng_ioctl hwFixed state0 0 0x7000).1 ≠ - ENOTTY := by
  decide

/-- C3 amended: a request identifier that is none of SEED, RAND, RAND64 never
causes a register access or any other host call (the state is unchanged); it is
answered with `-ENOTTY` when a mapping is live and with `-ENODEV` when none is. -/
theorem unsupported_rejected (hw : Hardware) (s : State) (cmd arg : Nat)
    (h1 : cmd ≠ MY_RNG_IOCTL_SEED) (h2 : cmd ≠ MY_RNG_IOCTL_RAND)
    (h3 : cmd ≠ MY_RNG_IOCTL_RAND64) :
    my_rng_ioctl hw s cmd arg = (if s.devmem = 0 then - ENODEV else - ENOTTY, s) := by
  by_cases h0 : s.devmem = 0
  · simp [my_rng_ioctl, h0]
  · simp [my_rng_ioctl, h0, h1, h2, h3]

/-- C3 amended, at the attached state and the request identifier `0`. -/
theorem unsupported_rejected_witness :
    my_rng_ioctl hwFixed stateAttached 0 0x7000 = (- ENOTTY, stateAttached) :=
  unsupported_rejected hwFixed stateAttached 0 0x7000 (by decide) (by decide) (by decide)

/-- C8: in the attached state a SEED request whose readable caller buffer holds the
32-bit value `v` returns 0; the only host calls it makes are the transfer from the
caller and one `iowrite32` of `v` to offset `0x4`; no register is read and the
caller's memory is unchanged. -/
theorem seed_writes_once (hw : Hardware) (s : State) (arg v : Nat)
    (hdev : s.devmem ≠ 0) (hbuf : s.readable arg = true)
    (hv : s.load arg = v) (hv32 : v < 2 ^ 32) :
    my_rng_ioctl hw s MY_RNG_IOCTL_SEED arg =
      (0, { s with trace := s.trace ++
              [Event.copy_from_user arg 4, Event.iowrite32 v (s.devmem + 0x4)] }) := by
  have hne1 : MY_RNG_IOCTL_SEED ≠ MY_RNG_IOCTL_RAND := by decide
  have hne2 : MY_RNG_IOCTL_SEED ≠ MY_RNG_IOCTL_RAND64 := by decide
  have hm : s.load arg % 2 ^ (8 * 4) = v := by
    rw [hv]; exact Nat.mod_eq_of_lt (by simpa using hv32)
  simp only [my_rng_ioctl, hdev, hne1, hne2, if_false, if_true, copy_from_user, hbuf,
    sizeof_unsigned_int, hm, iowrite32, ne_eq, not_true_eq_false, List.append_assoc,
    List.cons_append, List.nil_append]

/-- C8 at the example of the client: the seed 0x12345678. -/
theorem seed_writes_once_witness :
    my_rng_ioctl hwFixed stateAttached MY_RNG_IOCTL_SEED 0x7000 =
      (0, { stateAttached with trace := stateAttached.trace ++
              [Event.copy_from_user 0x7000 4, Event.iowrite32 0x12345678 (0x1000 + 0x4)] }) :=
  seed_writes_once hwFixed stateAttached 0x7000 0x12345678 (by decide) (by decide)
    (by decide) (by decide)

/-- C9: the request identifiers hard-coded in the client equal the driver's
encodings, `_IOR('q', 1, unsigned int) = 0x80047101`,
`_IOR('q', 2, unsigned long long) = 0x80087102`, `_IOW('q', 1, unsigned int) =
0x40047101`, and the three are pairwise distinct. -/
theorem request_identifiers_agree :
    ('q'.toNat = 0x71 ∧ _IOC_READ = 2 ∧ _IOC_WRITE = 1)
      ∧ (MY_RNG_IOCTL_RAND = 0x80047101 ∧ MY_RNG_IOCTL_RAND = RAND_IOCTL)
      ∧ (MY_RNG_IOCTL_RAND64 = 0x80087102 ∧ MY_RNG_IOCTL_RAND64 = RAND64_IOCTL)
      ∧ (MY_RNG_IOCTL_SEED = 0x40047101 ∧ MY_RNG_IOCTL_SEED = SEED_IOCTL)
      ∧ MY_RNG_IOCTL_RAND ≠ MY_RNG_IOCTL_RAND64
      ∧ MY_RNG_IOCTL_RAND ≠ MY_RNG_IOCTL_SEED
      ∧ MY_RNG_IOCTL_RAND64 ≠ MY_RNG_IOCTL_SEED := by
  decide

/-! ## Device lifecycle -/

/-- C4: a successful attach (`my_rng_pci_probe` returning 0) leaves a mapping
reference; after any stream of served requests and then detach, no mapping
reference is left (`devmem == NULL`),
and every later request, whatever its kind, returns `-ENODEV` and leaves the state,
trace included, unchanged. -/
theorem detach_then_not_ready (hw : Hardware) (h : Host) (s0 : State) (pdev : Nat)
    (reqs : List (Nat × Nat)) (cmd arg : Nat)
    (hattach : (my_rng_pci_probe h s0 pdev).1 = 0) :
    (my_rng_pci_probe h s0 pdev).2.devmem ≠ 0
      ∧ (my_rng_pci_remove (serve hw (my_rng_pci_probe h s0 pdev).2 reqs) pdev).devmem = 0
      ∧ my_rng_ioctl hw
          (my_rng_pci_remove (serve hw (my_rng_pci_probe h s0 pdev).2 reqs) pdev) cmd arg
        = (- ENODEV, my_rng_pci_remove (serve hw (my_rng_pci_probe h s0 pdev).2 reqs) pdev) := by
  exact ⟨probe_ok_devmem h s0 pdev hattach, remove_devmem _ _,
    ioctl_unmapped hw _ cmd arg (remove_devmem _ _)⟩

/-- C4 on a concrete run: attach, seed, draw32, draw64, detach, then a RAND64
request is refused. -/
theorem detach_then_not_ready_witness :
    (my_rng_pci_probe hostOk state0 7).1 = 0
      ∧ (my_rng_ioctl hwFixed
          (my_rng_pci_remove (serve hwFixed (my_rng_pci_probe hostOk state0 7).2
            [(MY_RNG_IOCTL_SEED, 0x7000), (MY_RNG_IOCTL_RAND, 0x7000),
             (MY_RNG_IOCTL_RAND64, 0x7000)]) 7)
          MY_RNG_IOCTL_RAND64 0x7000).1 = - ENODEV :=
  ⟨by decide,
   congrArg Prod.fst
     (detach_then_not_ready hwFixed hostOk state0 7
        [(MY_RNG_IOCTL_SEED, 0x7000), (MY_RNG_IOCTL_RAND, 0x7000),
         (MY_RNG_IOCTL_RAND64, 0x7000)] MY_RNG_IOCTL_RAND64 0x7000 (by decide)).2.2⟩

/-- C5: when attach starts from the unattached state and a failure is injected at
bus enable, at the region claim or at the mapping, `my_rng_pci_probe` returns a
non-zero error; the host calls it made are the steps that succeeded, the failing
call, and then the releases of the succeeded steps in reverse order; and the state
is the pre-attach state again (only the trace has grown): bus not enabled, no
region claimed, no mapping live, `devmem == NULL`, `my_rng_pci_dev == NULL`. -/
theorem probe_failure_unwinds (h : Host) (s : State) (pdev : Nat) (k : Step)
    (hs : Unattached s) (hk : FailsAt h k) :
    (my_rng_pci_probe h s pdev).1 ≠ 0
      ∧ (my_rng_pci_probe h s pdev).2 = { s with trace := s.trace ++ unwound h pdev k }
      ∧ Unattached (my_rng_pci_probe h s pdev).2 := by
  obtain ⟨hd, hp, he, hr, hm⟩ := hs
  have hstate : (my_rng_pci_probe h s pdev).1 ≠ 0
      ∧ (my_rng_pci_probe h s pdev).2 = { s with trace := s.trace ++ unwound h pdev k } := by
    cases s
    simp only at hd hp he hr hm
    subst hd hp he hr hm
    cases k
    · have h1 : h.enable_ret ≠ 0 := hk
      simp [my_rng_pci_probe, pci_enable_device, h1, unwound, EIO]
    · obtain ⟨h1, h2⟩ := hk
      simp [my_rng_pci_probe, pci_enable_device, pci_request_regions, pci_disable_device,
        h1, h2, unwound, EIO]
    · obtain ⟨h1, h2, h3⟩ := hk
      simp [my_rng_pci_probe, pci_enable_device, pci_request_regions, pci_disable_device,
        pci_iomap, pci_release_regions, h1, h2, h3, unwound, ENOMEM]
  refine ⟨hstate.1, hstate.2, ?_⟩
  rw [hstate.2]
  exact ⟨hd, hp, he, hr, hm⟩

/-- C5 at the three injected failures, from the concrete unattached state. -/
theorem probe_failure_unwinds_witness :
    (my_rng_pci_probe hostEnableFails state0 7).2
        = { state0 with trace := [Event.pci_enable_device 7] }
      ∧ (my_rng_pci_probe hostRegionFails state0 7).2
        = { state0 with trace :=
              [Event.pci_enable_device 7, Event.pci_request_regions 7,
               Event.pci_disable_device 7] }
      ∧ (my_rng_pci_probe hostMappingFails state0 7).2
        = { state0 with trace :=
              [Event.pci_enable_device 7, Event.pci_request_regions 7,
               Event.pci_iomap 7 0 16, Event.pci_release_regions 7,
               Event.pci_disable_device 7] } :=
  ⟨(probe_failure_unwinds hostEnableFails state0 7 Step.enable
      ⟨rfl, rfl, rfl, rfl, rfl⟩ (by decide)).2.1,
   (probe_failure_unwinds hostRegionFails state0 7 Step.region
      ⟨rfl, rfl, rfl, rfl, rfl⟩ ⟨by decide, by decide⟩).2.1,
   (probe_failure_unwinds hostMappingFails state0 7 Step.mapping
      ⟨rfl, rfl, rfl, rfl, rfl⟩ ⟨by decide, by decide, by decide⟩).2.1⟩

/-- C6 as stated fails: an attach whose bus enable fails and an attach whose region
claim fails return the same value, `-EIO`. -/
theorem probe_error_codes_counterexample :
    hostEnableFails.enable_ret ≠ 0
      ∧ (hostRegionFails.enable_ret = 0 ∧ hostRegionFails.request_ret ≠ 0)
      ∧ (my_rng_pci_probe hostEnableFails state0 7).1 = - EIO
      ∧ (my_rng_pci_probe hostRegionFails state0 7).1 = - EIO
      ∧ (my_rng_pci_probe hostEnableFails state0 7).1
          = (my_rng_pci_probe hostRegionFails state0 7).1 := by
  decide

/-- C6 amended: a failed attach returns `-EIO` when the bus enable or the region claim
fails and `-ENOMEM` when the mapping fails; so two failed attaches return the same
value exactly when both or neither failed at the mapping step. -/
theorem probe_error_codes (h1 h2 : Host) (s1 s2 : State) (p1 p2 : Nat) (k1 k2 : Step)
    (hk1 : FailsAt h1 k1) (hk2 : FailsAt h2 k2) :
    (my_rng_pci_probe h1 s1 p1).1 = (if k1 = Step.mapping then - ENOMEM else - EIO)
      ∧ ((my_rng_pci_probe h1 s1 p1).1 = (my_rng_pci_probe h2 s2 p2).1
          ↔ (k1 = Step.mapping ↔ k2 = Step.mapping)) := by
  have code : ∀ (h : Host) (s : State) (p : Nat) (k : Step), FailsAt h k →
      (my_rng_pci_probe h s p).1 = (if k = Step.mapping then - ENOMEM else - EIO) := by
    intro h s p k hk
    cases k
    · have e1 : h.enable_ret ≠ 0 := hk
      simp [my_rng_pci_probe, pci_enable_device, e1]
    · obtain ⟨e1, e2⟩ := hk
      simp [my_rng_pci_probe, pci_enable_device, pci_request_regions, e1, e2]
    · obtain ⟨e1, e2, e3⟩ := hk
      simp [my_rng_pci_probe, pci_enable_device, pci_request_regions, pci_iomap, e1, e2, e3]
  refine ⟨code h1 s1 p1 k1 hk1, ?_⟩
  rw [code h1 s1 p1 k1 hk1, code h2 s2 p2 k2 hk2]
  cases k1 <;> cases k2 <;> simp [ENOMEM, EIO]

/-- C6 amended, at a mapping failure against a region-claim failure. -/
theorem probe_error_codes_witness :
    (my_rng_pci_probe hostMappingFails state0 7).1 = - ENOMEM
      ∧ (my_rng_pci_probe hostMappingFails state0 7).1
          ≠ (my_rng_pci_probe hostRegionFails state0 7).1 :=
  ⟨(probe_error_codes hostMappingFails hostRegionFails state0 state0 7 7 Step.mapping
      Step.region ⟨by decide, by decide, by decide⟩ ⟨by decide, by decide⟩).1,
   fun e =>
     absurd
       (((probe_error_codes hostMappingFails hostRegionFails state0 state0 7 7 Step.mapping
          Step.region ⟨by decide, by decide, by decide⟩ ⟨by decide, by decide⟩).2.1 e).1 rfl)
       (by decide)⟩

/-- C7 as stated fails: after one detach of the attached state the request channel,
the region claim and the bus enable are already released, and a second detach
nevertheless calls `unregister_chrdev`, `pci_release_regions` and
`pci_disable_device` again. -/
theorem remove_twice_counterexample :
    ((my_rng_pci_remove stateAttached 7).chrdev = none
        ∧ (my_rng_pci_remove stateAttached 7).regions = false
        ∧ (my_rng_pci_remove stateAttached 7).enabled = false)
      ∧ (my_rng_pci_remove (my_rng_pci_remove stateAttached 7) 7).trace
          = (my_rng_pci_remove stateAttached 7).trace ++
              [Event.unregister_chrdev 240, Event.pci_release_regions 7,
               Event.pci_disable_device 7]
      ∧ (my_rng_pci_remove (my_rng_pci_remove stateAttached 7) 7).trace
          ≠ (my_rng_pci_remove stateAttached 7).trace := by
  decide

/-- C7 amended: for every state, running `my_rng_pci_remove` twice leaves the same
mapping reference, major number, active-device reference, bus-enable flag,
region-claim flag, live mapping, registered request channel and caller memory as
running it once; the second run never calls `pci_iounmap`, and it ends with the
unconditional `pci_release_regions` and `pci_disable_device`. -/
theorem remove_twice (s : State) (pdev : Nat) :
    { my_rng_pci_remove (my_rng_pci_remove s pdev) pdev with
        trace := (my_rng_pci_remove s pdev).trace } = my_rng_pci_remove s pdev
      ∧ ∃ pre : List Event,
          (my_rng_pci_remove (my_rng_pci_remove s pdev) pdev).trace
              = (my_rng_pci_remove s pdev).trace ++ pre ++
                  [Event.pci_release_regions pdev, Event.pci_disable_device pdev]
            ∧ ∀ p a, Event.pci_iounmap p a ∉ pre := by
  by_cases hm : s.major_num > 0
  · refine ⟨?_, [Event.unregister_chrdev s.major_num.toNat], ?_, ?_⟩
    · by_cases hd : s.devmem = 0
      · by_cases hc : s.chrdev = some s.major_num.toNat <;>
          simp [my_rng_pci_remove, pci_disable_device, pci_release_regions, pci_iounmap,
            unregister_chrdev, hm, hd, hc]
      · by_cases hc : s.chrdev = some s.major_num.toNat <;>
          simp [my_rng_pci_remove, pci_disable_device, pci_release_regions, pci_iounmap,
            unregister_chrdev, hm, hd, hc]
    · by_cases hd : s.devmem = 0 <;>
        simp [my_rng_pci_remove, pci_disable_device, pci_release_regions, pci_iounmap,
          unregister_chrdev, hm, hd]
    · intro p a
      simp
  · refine ⟨?_, [], ?_, ?_⟩
    · by_cases hd : s.devmem = 0 <;>
        simp [my_rng_pci_remove, pci_disable_device, pci_release_regions, pci_iounmap,
          unregister_chrdev, hm, hd]
    · by_cases hd : s.devmem = 0 <;>
        simp [my_rng_pci_remove, pci_disable_device, pci_release_regions, pci_iounmap,
          unregister_chrdev, hm, hd]
    · intro p a
      simp

/-- C10 on the code: when bus enable, region claim and mapping succeed and
`register_chrdev` fails with -16, `my_rng_pci_probe` returns -16 and releases the
mapping, the regions and the bus, but keeps `devmem` (0x1000) and `my_rng_pci_dev`
(7); a later RAND64 request is then served, with two register reads through the
released mapping, instead of being refused with `-ENODEV`. -/
theorem probe_chrdev_failure_keeps_mapping :
    (my_rng_pci_probe hostChrdevFails state0 7).1 = -16
      ∧ ((my_rng_pci_probe hostChrdevFails state0 7).2.iomap = 0
          ∧ (my_rng_pci_probe hostChrdevFails state0 7).2.regions = false
          ∧ (my_rng_pci_probe hostChrdevFails state0 7).2.enabled = false)
      ∧ (my_rng_pci_probe hostChrdevFails state0 7).2.devmem = 0x1000
      ∧ (my_rng_pci_probe hostChrdevFails state0 7).2.my_rng_pci_dev = 7
      ∧ (my_rng_ioctl hwFixed (my_rng_pci_probe hostChrdevFails state0 7).2
            MY_RNG_IOCTL_RAND64 0x7000).1 = 0
      ∧ (my_rng_ioctl hwFixed (my_rng_pci_probe hostChrdevFails state0 7).2
            MY_RNG_IOCTL_RAND64 0x7000).2.trace
          = (my_rng_pci_probe hostChrdevFails state0 7).2.trace ++
              [Event.ioread32 0x1008, Event.ioread32 0x100C,
               Event.copy_to_user 0x7000 0x0000000100000000 8] := by
  decide

end MyRng
